import Mathlib

/-!
Verification development for the speech-to-speech tutor chatbot
(`src/pages/ConsolePage.tsx` and `relay-server/index.js`).

Each definition is a shallow embedding of a function or state update from
the source; theorems check the specified behaviour against them.
-/

namespace Sqarqit

/-- The avatar presence state machine of ConsolePage: `type AvatarState`. -/
inductive AvatarState
  | idle
  | think
  | talk
deriving DecidableEq, Repr

/-- Source tag of a realtime event (`source: 'client' | 'server'`). -/
inductive EventSource
  | client
  | server
deriving DecidableEq, Repr

/-- The payload object `event` of a `RealtimeEvent`: the orchestrator reads
its `type` tag and, for transcription events, its `transcript`. -/
structure RealtimeEventPayload where
  type : String
  transcript : String
deriving DecidableEq, Repr

/-- `interface RealtimeEvent` of ConsolePage: timestamp, source, optional
occurrence count, and the payload. -/
structure RealtimeEvent where
  time : String
  source : EventSource
  count : Option Nat
  event : RealtimeEventPayload
deriving DecidableEq, Repr

/-- The updater passed to `setRealtimeEvents` (ConsolePage lines 401–409):
if the newest logged entry has the same `event.type` as the incoming event,
replace it by a copy with `count := (count || 0) + 1`; otherwise append the
incoming event. -/
def appendRealtimeEvent (prev : List RealtimeEvent) (rtEvent : RealtimeEvent) :
    List RealtimeEvent :=
  match prev.getLast? with
  | some lastEvent =>
      if lastEvent.event.type = rtEvent.event.type then
        prev.dropLast ++ [{ lastEvent with count := some (lastEvent.count.getD 0 + 1) }]
      else
        prev ++ [rtEvent]
  | none => prev ++ [rtEvent]

/-- C1: appending an event whose type equals the type of the newest log entry
replaces that entry with one carrying an incremented occurrence count (log
length unchanged, earlier entries untouched); an event of a different type —
or any event on an empty log — is appended, growing the log by exactly one,
and adjacent entries of different types are never merged. -/
theorem appendRealtimeEvent_coalesce (prev : List RealtimeEvent)
    (rtEvent lastEvent : RealtimeEvent)
    (hlast : prev.getLast? = some lastEvent) :
    (lastEvent.event.type = rtEvent.event.type →
      appendRealtimeEvent prev rtEvent =
        prev.dropLast ++ [{ lastEvent with count := some (lastEvent.count.getD 0 + 1) }] ∧
      (appendRealtimeEvent prev rtEvent).length = prev.length) ∧
    (lastEvent.event.type ≠ rtEvent.event.type →
      appendRealtimeEvent prev rtEvent = prev ++ [rtEvent] ∧
      (appendRealtimeEvent prev rtEvent).length = prev.length + 1) := by
  have hne : prev ≠ [] := by
    intro h
    rw [h] at hlast
    simp [List.getLast?] at hlast
  have hpos : 0 < prev.length := List.length_pos.mpr hne
  constructor
  · intro hty
    have heq : appendRealtimeEvent prev rtEvent =
        prev.dropLast ++ [{ lastEvent with count := some (lastEvent.count.getD 0 + 1) }] := by
      unfold appendRealtimeEvent
      rw [hlast]
      simp [hty]
    refine ⟨heq, ?_⟩
    rw [heq]
    simp [List.length_dropLast]
    omega
  · intro hty
    have heq : appendRealtimeEvent prev rtEvent = prev ++ [rtEvent] := by
      unfold appendRealtimeEvent
      rw [hlast]
      simp [hty]
    refine ⟨heq, ?_⟩
    rw [heq]
    simp

/-- A sample log entry used for concrete evaluations. -/
def sampleDeltaEvent : RealtimeEvent :=
  { time := "2024-01-01T00:00:00.000Z"
    source := EventSource.server
    count := none
    event := { type := "response.audio.delta", transcript := "" } }

/-- A sample incoming event of the same type as `sampleDeltaEvent`. -/
def sampleDeltaEvent2 : RealtimeEvent :=
  { time := "2024-01-01T00:00:01.000Z"
    source := EventSource.server
    count := none
    event := { type := "response.audio.delta", transcript := "" } }

/-- A sample incoming event of a different type. -/
def sampleCommitEvent : RealtimeEvent :=
  { time := "2024-01-01T00:00:02.000Z"
    source := EventSource.client
    count := none
    event := { type := "input_audio_buffer.commit", transcript := "" } }

/-- Witness for C1: on a concrete one-entry log, a same-type event coalesces
(count becomes 1, length stays 1) and a different-type event appends
(length becomes 2). -/
theorem appendRealtimeEvent_coalesce_witness :
    appendRealtimeEvent [sampleDeltaEvent] sampleDeltaEvent2 =
      [{ sampleDeltaEvent with count := some 1 }] ∧
    appendRealtimeEvent [sampleDeltaEvent] sampleCommitEvent =
      [sampleDeltaEvent, sampleCommitEvent] := by
  have h1 := appendRealtimeEvent_coalesce [sampleDeltaEvent] sampleDeltaEvent2
    sampleDeltaEvent (by decide)
  have h2 := appendRealtimeEvent_coalesce [sampleDeltaEvent] sampleCommitEvent
    sampleDeltaEvent (by decide)
  refine ⟨?_, ?_⟩
  · have := (h1.1 (by decide)).1
    simpa using this
  · have := (h2.2 (by decide)).1
    simpa using this

/-- Constructor options of the `RealtimeClient` (ConsolePage lines 109–115). -/
structure RealtimeClientConfig where
  url : Option String
  apiKey : Option String
  dangerouslyAllowAPIKeyInBrowser : Bool
deriving DecidableEq, Repr

/-- Client construction (ConsolePage lines 109–115): when a local relay URL
is set (nonempty, JS truthiness) the client gets only that URL; otherwise it
gets the API key with `dangerouslyAllowAPIKeyInBrowser`. -/
def mkRealtimeClient (localRelayServerUrl : String) (apiKey : String) :
    RealtimeClientConfig :=
  if localRelayServerUrl ≠ "" then
    { url := some localRelayServerUrl
      apiKey := none
      dangerouslyAllowAPIKeyInBrowser := false }
  else
    { url := none
      apiKey := some apiKey
      dangerouslyAllowAPIKeyInBrowser := true }

/-- Credentials attached to the two legs of one accepted relay connection. -/
structure RelayLegs where
  inboundCredential : Option String
  outboundCredential : Option String
  outboundProtocolMarker : Option String
deriving DecidableEq, Repr

/-- Modelled from the spec: `RealtimeRelay` (its implementation,
`relay-server/lib/relay.js`, is not under src; `relay-server/index.js`
constructs it with `OPENAI_API_KEY` and calls `listen(PORT)`). The spec says
the relay accepts an unauthenticated inbound upgrade — no credential travels
on that leg — and opens one authenticated outbound connection per accepted
client, injecting the upstream credential and a fixed protocol-version
marker. -/
def relayAcceptConnection (credential : String) : RelayLegs :=
  { inboundCredential := none
    outboundCredential := some credential
    outboundProtocolMarker := some "openai-beta.realtime-v1" }

/-- C2: with a local relay URL configured, the client is constructed with
only that URL and no API key, so the credential never travels on the
client-to-relay leg; the relay attaches the credential only on its outbound
leg. -/
theorem relay_credential_confinement (url apiKey credential : String)
    (hurl : url ≠ "") :
    (mkRealtimeClient url apiKey).url = some url ∧
    (mkRealtimeClient url apiKey).apiKey = none ∧
    (relayAcceptConnection credential).inboundCredential = none ∧
    (relayAcceptConnection credential).outboundCredential = some credential := by
  refine ⟨?_, ?_, rfl, rfl⟩ <;> simp [mkRealtimeClient, hurl]

/-- Witness for C2 at the documented relay URL. -/
theorem relay_credential_confinement_witness :
    (mkRealtimeClient "http://localhost:8081" "sk-secret").apiKey = none ∧
    (relayAcceptConnection "sk-secret").inboundCredential = none :=
  ⟨(relay_credential_confinement "http://localhost:8081" "sk-secret" "sk-secret"
      (by decide)).2.1,
   (relay_credential_confinement "http://localhost:8081" "sk-secret" "sk-secret"
      (by decide)).2.2.1⟩

/-- An avatar-state command issued through `setAvatarStateSafely`: target
state and hold delay in milliseconds (0 = immediate). -/
structure AvatarCmd where
  state : AvatarState
  holdMs : Nat
deriving DecidableEq, Repr

/-- JavaScript `s.startsWith(p)`: `p` is a prefix of `s`, on the character
sequences. -/
def jsStartsWith (s p : String) : Bool :=
  p.data.isPrefixOf s.data

/-- The `realtime.event` handler's if/else-if chain driving the avatar
(ConsolePage lines 387–395), in source order: commit or transcription
completed → think; any type starting with `response.` or
`conversation.item.output` → talk; `response.completed` → idle after a
300 ms hold (this last branch is only reached if the earlier ones fail). -/
def classifyRealtimeEvent (t : String) : Option AvatarCmd :=
  if t = "input_audio_buffer.commit" ∨
      t = "conversation.item.input_audio_transcription.completed" then
    some { state := AvatarState.think, holdMs := 0 }
  else if jsStartsWith t "response." ∨ jsStartsWith t "conversation.item.output" then
    some { state := AvatarState.talk, holdMs := 0 }
  else if t = "response.completed" then
    some { state := AvatarState.idle, holdMs := 300 }
  else
    none

/-- C3 (code bug): on a `response.completed` event the handler sets the
avatar to talk immediately — the `t.startsWith "response."` branch precedes
and shadows the `t = "response.completed"` branch, so the scheduled
idle-after-debounce transition the spec describes is dead code. -/
theorem classifyRealtimeEvent_response_completed :
    classifyRealtimeEvent "response.completed" =
      some { state := AvatarState.talk, holdMs := 0 } := by
  decide

/-- Status of the `WavRecorder` capture pipeline, as read by
`wavRecorder.getStatus()`. -/
inductive RecStatus
  | ended
  | paused
  | recording
deriving DecidableEq, Repr

/-- One observable action performed by `changeTurnEndType`, in order. -/
inductive TurnAction
  | pause
  | updateSession (turnDetection : Option String)
  | record
  | setCanPushToTalk (b : Bool)
deriving DecidableEq, Repr

/-- `changeTurnEndType` (ConsolePage lines 235–247) as the ordered list of
actions it performs, given the toggle value, the recorder status, and
whether the client is connected: pause only when entering manual with the
recorder recording; then apply the new turn-detection configuration; then
record only when entering automatic while connected; finally update the
push-to-talk flag. -/
def changeTurnEndType (value : String) (recStatus : RecStatus) (connected : Bool) :
    List TurnAction :=
  (if value = "none" ∧ recStatus = RecStatus.recording then [TurnAction.pause] else []) ++
  [TurnAction.updateSession (if value = "none" then none else some "server_vad")] ++
  (if value = "server_vad" ∧ connected then [TurnAction.record] else []) ++
  [TurnAction.setCanPushToTalk (value = "none")]

/-- Effect of one `changeTurnEndType` action on the recorder status:
`wavRecorder.pause()` leaves it paused, `wavRecorder.record(...)` leaves it
recording, the session and UI updates do not touch the recorder. -/
def applyTurnAction (s : RecStatus) (a : TurnAction) : RecStatus :=
  match a with
  | TurnAction.pause => RecStatus.paused
  | TurnAction.record => RecStatus.recording
  | TurnAction.updateSession _ => s
  | TurnAction.setCanPushToTalk _ => s

/-- Recorder status after running a list of `changeTurnEndType` actions. -/
def runTurn (s : RecStatus) (acts : List TurnAction) : RecStatus :=
  acts.foldl applyTurnAction s

/-- C4 counterexample: switching to automatic (`server_vad`) while capture
is actively recording performs no pause at all — the session configuration
is applied and capture re-driven without pausing first, refuting "any active
capture is paused first" for every mode switch. -/
theorem changeTurnEndType_no_pause_entering_auto :
    changeTurnEndType "server_vad" RecStatus.recording true =
      [TurnAction.updateSession (some "server_vad"), TurnAction.record,
        TurnAction.setCanPushToTalk false] ∧
    (changeTurnEndType "server_vad" RecStatus.recording true).contains
      TurnAction.pause = false := by
  decide

/-- C4 (amended): switching to manual pauses any active capture before the
new configuration is applied (and performs exactly pause, configure, flag
update); capture is (re)started only when the new mode is automatic; and a
manual→automatic→manual round trip starting from paused capture ends with
capture paused after each return to manual, never recording under the
manual configuration. -/
theorem changeTurnEndType_spec (s : RecStatus) (c c2 : Bool) :
    (s = RecStatus.recording →
      changeTurnEndType "none" s c =
        [TurnAction.pause, TurnAction.updateSession none,
          TurnAction.setCanPushToTalk true]) ∧
    (s ≠ RecStatus.recording →
      changeTurnEndType "none" s c =
        [TurnAction.updateSession none, TurnAction.setCanPushToTalk true]) ∧
    (∀ v s2 c3, TurnAction.record ∈ changeTurnEndType v s2 c3 → v = "server_vad") ∧
    (runTurn RecStatus.paused (changeTurnEndType "server_vad" RecStatus.paused c) =
      (if c then RecStatus.recording else RecStatus.paused)) ∧
    (runTurn
        (runTurn RecStatus.paused (changeTurnEndType "server_vad" RecStatus.paused c))
        (changeTurnEndType "none"
          (runTurn RecStatus.paused (changeTurnEndType "server_vad" RecStatus.paused c))
          c2) =
      RecStatus.paused) := by
  refine ⟨?_, ?_, ?_, ?_, ?_⟩
  · intro hs
    subst hs
    cases c <;> decide
  · intro hs
    cases s with
    | ended => cases c <;> decide
    | paused => cases c <;> decide
    | recording => exact absurd rfl hs
  · intro v s2 c3 hmem
    unfold changeTurnEndType at hmem
    by_cases hv : v = "server_vad"
    · exact hv
    · exfalso
      have h2 : ¬(v = "server_vad" ∧ c3 = true) := fun h => hv h.1
      rcases Decidable.em (v = "none" ∧ s2 = RecStatus.recording) with h1 | h1 <;>
        simp [h1, h2, hv] at hmem
  · cases c <;> decide
  · cases c <;> cases c2 <;> decide

/-- Witness for C4: the round trip at concrete inputs (connected on both
switches), plus the pause-first trace when leaving automatic while
recording. -/
theorem changeTurnEndType_spec_witness :
    changeTurnEndType "none" RecStatus.recording true =
      [TurnAction.pause, TurnAction.updateSession none,
        TurnAction.setCanPushToTalk true] ∧
    runTurn
        (runTurn RecStatus.paused (changeTurnEndType "server_vad" RecStatus.paused true))
        (changeTurnEndType "none"
          (runTurn RecStatus.paused (changeTurnEndType "server_vad" RecStatus.paused true))
          true) =
      RecStatus.paused := by
  have h := changeTurnEndType_spec RecStatus.recording true true
  have h2 := changeTurnEndType_spec RecStatus.paused true true
  exact ⟨h.1 rfl, h2.2.2.2.2⟩

/-- Outcome of the `conversation.interrupted` handler: whether playback was
stopped, the `cancelResponse(trackId, offset)` calls made, and the avatar
command issued. -/
structure InterruptedOutcome where
  stoppedPlayback : Bool
  cancellations : List (String × Nat)
  avatarCmd : AvatarCmd
deriving DecidableEq, Repr

/-- The `conversation.interrupted` handler (ConsolePage lines 414–421):
`wavStreamPlayer.interrupt()` is awaited first (stopping playback and
returning the track/offset pair at the stop instant, or nothing when no
track was playing); if a pair with a truthy `trackId` came back, exactly one
`cancelResponse(trackId, offset)` is sent; then the avatar is set to idle
immediately. -/
def onConversationInterrupted (interruptResult : Option (String × Nat)) :
    InterruptedOutcome :=
  { stoppedPlayback := true
    cancellations :=
      match interruptResult with
      | some (trackId, offset) =>
          if trackId = "" then [] else [(trackId, offset)]
      | none => []
    avatarCmd := { state := AvatarState.idle, holdMs := 0 } }

/-- C6: on `conversation.interrupted`, playback is stopped, exactly one
cancellation referencing the returned (trackId, sampleOffset) pair is sent
when a track was playing, no cancellation is sent when none was, and the
avatar is set to idle immediately. -/
theorem onConversationInterrupted_spec (r : Option (String × Nat)) :
    (onConversationInterrupted r).stoppedPlayback = true ∧
    (onConversationInterrupted r).avatarCmd =
      { state := AvatarState.idle, holdMs := 0 } ∧
    (∀ trackId offset, r = some (trackId, offset) → trackId ≠ "" →
      (onConversationInterrupted r).cancellations = [(trackId, offset)]) ∧
    (r = none → (onConversationInterrupted r).cancellations = []) := by
  refine ⟨rfl, rfl, ?_, ?_⟩
  · intro trackId offset hr htid
    subst hr
    simp [onConversationInterrupted, htid]
  · intro hr
    subst hr
    rfl

/-- Witness for C6: a playing track yields exactly its cancellation pair;
no track yields none. -/
theorem onConversationInterrupted_spec_witness :
    (onConversationInterrupted (some ("item_003", 4800))).cancellations =
      [("item_003", 4800)] ∧
    (onConversationInterrupted none).cancellations = [] :=
  ⟨(onConversationInterrupted_spec (some ("item_003", 4800))).2.2.1
      "item_003" 4800 rfl (by decide),
   (onConversationInterrupted_spec none).2.2.2 rfl⟩

/-- Outcome of `stopRecording`: the recording flag, whether the recorder was
paused, how many `input_audio_buffer.commit` messages were sent, the audio
queued to the local conversation, the client input buffer afterwards, and
the avatar command issued. -/
structure StopRecordingOutcome where
  isRecording : Bool
  recorderPaused : Bool
  commitsSent : Nat
  queuedAudio : List Int
  bufferAfter : List Int
  avatarCmd : AvatarCmd
deriving DecidableEq, Repr

/-- `stopRecording` (ConsolePage lines 220–232): clear the recording flag,
pause the recorder, and — when `client.inputAudioBuffer.byteLength > 0`
(two bytes per Int16 sample) — send one explicit commit, queue the buffered
audio locally, and reset the buffer to empty; finally set the avatar to
think. -/
def stopRecording (inputAudioBuffer : List Int) : StopRecordingOutcome :=
  if 2 * inputAudioBuffer.length > 0 then
    { isRecording := false
      recorderPaused := true
      commitsSent := 1
      queuedAudio := inputAudioBuffer
      bufferAfter := []
      avatarCmd := { state := AvatarState.think, holdMs := 0 } }
  else
    { isRecording := false
      recorderPaused := true
      commitsSent := 0
      queuedAudio := []
      bufferAfter := inputAudioBuffer
      avatarCmd := { state := AvatarState.think, holdMs := 0 } }

/-- C7: every `stopRecording` call pauses capture and sets the avatar to
think; the buffered audio, when present, is flushed as exactly one explicit
commit carrying the whole buffer; and the local input audio buffer is empty
afterwards (an already-empty buffer triggers no commit). -/
theorem stopRecording_spec (inputAudioBuffer : List Int) :
    (stopRecording inputAudioBuffer).recorderPaused = true ∧
    (stopRecording inputAudioBuffer).isRecording = false ∧
    (stopRecording inputAudioBuffer).avatarCmd =
      { state := AvatarState.think, holdMs := 0 } ∧
    (stopRecording inputAudioBuffer).bufferAfter = [] ∧
    (inputAudioBuffer ≠ [] →
      (stopRecording inputAudioBuffer).commitsSent = 1 ∧
      (stopRecording inputAudioBuffer).queuedAudio = inputAudioBuffer) ∧
    (inputAudioBuffer = [] → (stopRecording inputAudioBuffer).commitsSent = 0) := by
  cases inputAudioBuffer with
  | nil => exact ⟨rfl, rfl, rfl, rfl, fun h => absurd rfl h, fun _ => rfl⟩
  | cons a tl =>
      refine ⟨?_, ?_, ?_, ?_, fun _ => ⟨?_, ?_⟩, fun h => by simp at h⟩ <;>
        simp [stopRecording]

/-- Witness for C7 on a concrete nonempty buffer. -/
theorem stopRecording_spec_witness :
    (stopRecording [12, -7, 0]).recorderPaused = true ∧
    (stopRecording [12, -7, 0]).commitsSent = 1 ∧
    (stopRecording [12, -7, 0]).queuedAudio = [12, -7, 0] ∧
    (stopRecording [12, -7, 0]).bufferAfter = [] := by
  have h := stopRecording_spec [12, -7, 0]
  have hne : ([12, -7, 0] : List Int) ≠ [] := by decide
  exact ⟨h.1, (h.2.2.2.2.1 hne).1, (h.2.2.2.2.1 hne).2, h.2.2.2.1⟩

/-- JavaScript `s.trim()`: strip leading and trailing whitespace from the
character sequence. -/
def jsTrim (s : String) : String :=
  String.mk
    (((s.data.dropWhile Char.isWhitespace).reverse.dropWhile Char.isWhitespace).reverse)

/-- Outcome of the `fetch` to the retrieval collaborator inside
`injectContext`: an ok response carrying `data.message`, a non-ok HTTP
response, or a network error. -/
inductive ContextFetch
  | ok (message : String)
  | httpError (status : Nat)
  | networkError (msg : String)
deriving DecidableEq, Repr

/-- Effects of a completed `injectContext` run: whether the retrieval
collaborator was queried, the user messages sent to the session, whether
`createResponse()` was called, and the avatar command issued. -/
structure InjectOutcome where
  queriedRetrieval : Bool
  sentMessages : List String
  createdResponse : Bool
  avatarCmd : Option AvatarCmd
deriving DecidableEq, Repr

/-- `injectContext` (ConsolePage lines 250–263): trim the transcript and
return at once when it is blank; otherwise fetch from the retrieval
collaborator — a network error rejects, a non-ok response throws
`HTTP error! status: ...` — and on success send `data.message` as a user
message, call `createResponse()` only when turn detection is null (manual
mode), and set the avatar to think. The `Except.error` result models the
thrown/rejected cases. -/
def injectContext (turnDetection : Option String) (transcript : String)
    (fetchOutcome : ContextFetch) : Except String InjectOutcome :=
  if jsTrim transcript = "" then
    Except.ok
      { queriedRetrieval := false
        sentMessages := []
        createdResponse := false
        avatarCmd := none }
  else
    match fetchOutcome with
    | ContextFetch.networkError msg => Except.error msg
    | ContextFetch.httpError status =>
        Except.error ("HTTP error! status: " ++ toString status)
    | ContextFetch.ok message =>
        Except.ok
          { queriedRetrieval := true
            sentMessages := [message]
            createdResponse := turnDetection.isNone
            avatarCmd := some { state := AvatarState.think, holdMs := 0 } }

/-- C10: on an empty or whitespace-only transcript, `injectContext` returns
immediately — no retrieval query, no user message, no `createResponse()`,
no avatar change, and no error. -/
theorem injectContext_blank_transcript (turnDetection : Option String)
    (transcript : String) (fetchOutcome : ContextFetch)
    (h : jsTrim transcript = "") :
    injectContext turnDetection transcript fetchOutcome =
      Except.ok
        { queriedRetrieval := false
          sentMessages := []
          createdResponse := false
          avatarCmd := none } := by
  simp [injectContext, h]

/-- Witness for C10 on a whitespace-only transcript, with a failing fetch to
show the collaborator outcome is irrelevant. -/
theorem injectContext_blank_transcript_witness :
    injectContext (some "server_vad") "  \t " (ContextFetch.httpError 500) =
      Except.ok
        { queriedRetrieval := false
          sentMessages := []
          createdResponse := false
          avatarCmd := none } :=
  injectContext_blank_transcript (some "server_vad") "  \t "
    (ContextFetch.httpError 500) (by decide)

/-- Result of one invocation of the `realtime.event` handler (ConsolePage
lines 387–410): avatar commands issued, the context-injection outcome (if
any), the event log after the invocation, and the error that escaped the
async handler uncaught (if any). -/
structure RealtimeHandlerOutcome where
  avatarCmds : List AvatarCmd
  injection : Option InjectOutcome
  log : List RealtimeEvent
  uncaughtError : Option String
deriving DecidableEq, Repr

/-- The `realtime.event` handler: classify the event type for the avatar;
on a completed input transcription, await `injectContext` on the
transcript — there is no try/catch, so an `Except.error` escapes and the
trailing `setRealtimeEvents` append never runs for that event; otherwise
(and on injection success) the event is appended/coalesced into the log. -/
def handleRealtimeEvent (turnDetection : Option String)
    (fetchOutcome : ContextFetch) (prev : List RealtimeEvent)
    (rtEvent : RealtimeEvent) : RealtimeHandlerOutcome :=
  let t := rtEvent.event.type
  let cmds := (classifyRealtimeEvent t).toList
  if t = "conversation.item.input_audio_transcription.completed" then
    match injectContext turnDetection rtEvent.event.transcript fetchOutcome with
    | Except.error msg =>
        { avatarCmds := cmds
          injection := none
          log := prev
          uncaughtError := some msg }
    | Except.ok r =>
        { avatarCmds := cmds ++ r.avatarCmd.toList
          injection := some r
          log := appendRealtimeEvent prev rtEvent
          uncaughtError := none }
  else
    { avatarCmds := cmds
      injection := none
      log := appendRealtimeEvent prev rtEvent
      uncaughtError := none }

/-- A concrete completed-transcription event with a non-blank transcript. -/
def sampleTranscriptionEvent : RealtimeEvent :=
  { time := "2024-01-01T00:00:03.000Z"
    source := EventSource.server
    count := none
    event :=
      { type := "conversation.item.input_audio_transcription.completed"
        transcript := "what is a derivative" } }

/-- C5 counterexample: a non-ok retrieval response during a completed input
transcription is not swallowed — the error escapes the handler uncaught,
and the event-log append for that event is skipped (the log is unchanged),
so the handler invocation is aborted rather than proceeding. -/
theorem injectContext_failure_escapes :
    (handleRealtimeEvent none (ContextFetch.httpError 500) [sampleDeltaEvent]
        sampleTranscriptionEvent).uncaughtError = some "HTTP error! status: 500" ∧
    (handleRealtimeEvent none (ContextFetch.httpError 500) [sampleDeltaEvent]
        sampleTranscriptionEvent).log = [sampleDeltaEvent] ∧
    (handleRealtimeEvent none (ContextFetch.httpError 500) [sampleDeltaEvent]
        sampleTranscriptionEvent).injection = none := by
  decide

/-- C5 (amended): on a completed input transcription with a non-blank
transcript, any retrieval failure (non-ok HTTP response or network error)
makes `injectContext` throw; the rejection escapes the handler uncaught, no
context is injected, and the event-log append for that event is skipped —
only the avatar classification, which ran before the await, takes effect.
Other handler invocations are independent of the failure. -/
theorem handleRealtimeEvent_retrieval_failure (turnDetection : Option String)
    (prev : List RealtimeEvent) (rtEvent : RealtimeEvent)
    (htype : rtEvent.event.type =
      "conversation.item.input_audio_transcription.completed")
    (htr : jsTrim rtEvent.event.transcript ≠ "") :
    (∀ status,
      (handleRealtimeEvent turnDetection (ContextFetch.httpError status) prev
          rtEvent).uncaughtError = some ("HTTP error! status: " ++ toString status) ∧
      (handleRealtimeEvent turnDetection (ContextFetch.httpError status) prev
          rtEvent).log = prev ∧
      (handleRealtimeEvent turnDetection (ContextFetch.httpError status) prev
          rtEvent).injection = none) ∧
    (∀ msg,
      (handleRealtimeEvent turnDetection (ContextFetch.networkError msg) prev
          rtEvent).uncaughtError = some msg ∧
      (handleRealtimeEvent turnDetection (ContextFetch.networkError msg) prev
          rtEvent).log = prev ∧
      (handleRealtimeEvent turnDetection (ContextFetch.networkError msg) prev
          rtEvent).injection = none) := by
  constructor
  · intro status
    refine ⟨?_, ?_, ?_⟩ <;>
      simp [handleRealtimeEvent, injectContext, htype, htr]
  · intro msg
    refine ⟨?_, ?_, ?_⟩ <;>
      simp [handleRealtimeEvent, injectContext, htype, htr]

/-- Witness for C5 (amended) at a concrete transcription event, log, and
failing network fetch. -/
theorem handleRealtimeEvent_retrieval_failure_witness :
    (handleRealtimeEvent none (ContextFetch.networkError "fetch failed")
        [sampleDeltaEvent] sampleTranscriptionEvent).uncaughtError =
      some "fetch failed" ∧
    (handleRealtimeEvent none (ContextFetch.networkError "fetch failed")
        [sampleDeltaEvent] sampleTranscriptionEvent).log = [sampleDeltaEvent] :=
  ⟨((handleRealtimeEvent_retrieval_failure none [sampleDeltaEvent]
      sampleTranscriptionEvent (by decide) (by decide)).2 "fetch failed").1,
   ((handleRealtimeEvent_retrieval_failure none [sampleDeltaEvent]
      sampleTranscriptionEvent (by decide) (by decide)).2 "fetch failed").2.1⟩

/-- A numeric reading together with its units, as shown in the marker
(`{ value, units }` in the `Coordinates` interface). -/
structure UnitValue where
  value : Rat
  units : String
deriving DecidableEq, Repr

/-- `interface Coordinates` of ConsolePage: a lat/lng pair with an optional
location name and optional temperature and wind-speed readings. -/
structure Coordinates where
  lat : Rat
  lng : Rat
  location : Option String
  temperature : Option UnitValue
  wind_speed : Option UnitValue
deriving DecidableEq, Repr

/-- The `current` block of the open-meteo response used by the handler. -/
structure WeatherCurrent where
  temperature_2m : Rat
  wind_speed_10m : Rat
deriving DecidableEq, Repr

/-- The `current_units` block of the open-meteo response. -/
structure WeatherUnits where
  temperature_2m : String
  wind_speed_10m : String
deriving DecidableEq, Repr

/-- The open-meteo JSON body, restricted to the fields the handler reads. -/
structure WeatherJson where
  current : WeatherCurrent
  current_units : WeatherUnits
deriving DecidableEq, Repr

/-- Outcome of the weather `fetch`: a parsed JSON body, or a network
failure that rejects. -/
inductive FetchWeather
  | success (json : WeatherJson)
  | failure (msg : String)
deriving DecidableEq, Repr

/-- Effects of one `get_weather` handler invocation: the marker and coords
states after the call, and the handler's result (the raw JSON on success,
the rejection on failure). -/
structure GetWeatherOutcome where
  marker : Option Coordinates
  coords : Option Coordinates
  result : Except String WeatherJson
deriving Repr

/-- The `get_weather` tool handler (ConsolePage lines 358–384): set marker
and coords to the requested coordinate first; then fetch — on success,
extract numeric temperature and wind speed with their units from
`json.current` / `json.current_units`, update the marker with them, and
return the JSON; on failure the awaited fetch rejects, leaving the marker
at the bare coordinate. -/
def get_weather (lat lng : Rat) (location : String)
    (fetchOutcome : FetchWeather) : GetWeatherOutcome :=
  let base : Coordinates :=
    { lat := lat, lng := lng, location := some location
      temperature := none, wind_speed := none }
  match fetchOutcome with
  | FetchWeather.failure msg =>
      { marker := some base, coords := some base, result := Except.error msg }
  | FetchWeather.success json =>
      let temperature : UnitValue :=
        { value := json.current.temperature_2m
          units := json.current_units.temperature_2m }
      let wind_speed : UnitValue :=
        { value := json.current.wind_speed_10m
          units := json.current_units.wind_speed_10m }
      { marker := some
          { base with temperature := some temperature, wind_speed := some wind_speed }
        coords := some base
        result := Except.ok json }

/-- What the tool dispatch does with a resolved or rejected handler. -/
inductive FunctionCallOutput
  | success
  | error (message : String)
deriving DecidableEq, Repr

/-- One dispatched tool call: the function-call-output item emitted and
whether event consumption was halted. -/
structure ToolDispatchOutcome where
  output : FunctionCallOutput
  eventLoopHalted : Bool
deriving DecidableEq, Repr

/-- Modelled from the spec: the realtime client library's tool-call
dispatch (the `RealtimeClient.addTool` invocation machinery is not under
src). The spec says a tool invocation is run asynchronously and — without
blocking further event consumption — a function-call-output item is emitted
once the handler resolves (success or error); a handler failure emits a
function-call-output carrying an error payload and the conversation
continues. -/
def dispatchToolCall (handlerResult : Except String WeatherJson) :
    ToolDispatchOutcome :=
  match handlerResult with
  | Except.ok _ => { output := FunctionCallOutput.success, eventLoopHalted := false }
  | Except.error msg =>
      { output := FunctionCallOutput.error msg, eventLoopHalted := false }

/-- C8: on network success `get_weather` returns the JSON whose numeric
temperature and wind speed each carry units, and the marker is updated to
the requested coordinate with those readings; on network failure the
handler rejects, the dispatch emits an error-carrying function-call output,
and the event-consumption loop is not halted. -/
theorem get_weather_spec (lat lng : Rat) (location : String) :
    (∀ json : WeatherJson,
      (get_weather lat lng location (FetchWeather.success json)).result =
        Except.ok json ∧
      (get_weather lat lng location (FetchWeather.success json)).marker =
        some
          { lat := lat, lng := lng, location := some location
            temperature := some
              { value := json.current.temperature_2m
                units := json.current_units.temperature_2m }
            wind_speed := some
              { value := json.current.wind_speed_10m
                units := json.current_units.wind_speed_10m } }) ∧
    (∀ msg,
      (get_weather lat lng location (FetchWeather.failure msg)).result =
        Except.error msg ∧
      (get_weather lat lng location (FetchWeather.failure msg)).marker =
        some
          { lat := lat, lng := lng, location := some location
            temperature := none, wind_speed := none } ∧
      dispatchToolCall
          (get_weather lat lng location (FetchWeather.failure msg)).result =
        { output := FunctionCallOutput.error msg, eventLoopHalted := false }) :=
  ⟨fun _ => ⟨rfl, rfl⟩, fun _ => ⟨rfl, rfl, rfl⟩⟩

/-- The local memory map (`memoryKv`) together with the handler's return
value. -/
structure SetMemoryAck where
  ok : Bool
deriving DecidableEq, Repr

/-- The `set_memory` tool handler (ConsolePage lines 339–356): functional
update `{ ...kv, [key]: value }` of the memory map, returning `ok: true`. -/
def set_memory (kv : String → Option String) (key value : String) :
    (String → Option String) × SetMemoryAck :=
  (fun k => if k = key then some value else kv k, { ok := true })

/-- C9: `set_memory` binds `key` to `value`, leaves every other key's
binding unchanged, and acknowledges success regardless of whether `key` was
already present. -/
theorem set_memory_spec (kv : String → Option String) (key value : String) :
    (set_memory kv key value).1 key = some value ∧
    (∀ k, k ≠ key → (set_memory kv key value).1 k = kv k) ∧
    (set_memory kv key value).2 = { ok := true } := by
  refine ⟨by simp [set_memory], ?_, rfl⟩
  intro k hk
  simp [set_memory, hk]

/-- A concrete starting memory with two bindings, one of them at the key
about to be overwritten. -/
def sampleMemoryKv : String → Option String :=
  fun k =>
    if k = "favorite_color" then some "red"
    else if k = "language" then some "en" else none

/-- Witness for C9: overwriting `favorite_color` rebinds it to "blue",
leaves `language` bound to "en", and still acknowledges success. -/
theorem set_memory_spec_witness :
    (set_memory sampleMemoryKv "favorite_color" "blue").1 "favorite_color" =
      some "blue" ∧
    (set_memory sampleMemoryKv "favorite_color" "blue").1 "language" = some "en" ∧
    (set_memory sampleMemoryKv "favorite_color" "blue").2 = { ok := true } := by
  have h := set_memory_spec sampleMemoryKv "favorite_color" "blue"
  refine ⟨h.1, ?_, h.2.2⟩
  have h2 := h.2.1 "language" (by decide)
  rw [h2]
  decide

end Sqarqit
